import Mathlib

/-!
# Verification of the BMR HC64 Home Assistant integration

A shallow embedding, in Lean 4, of the state model and the state-handling
logic of the `bmr_hc64` Home Assistant custom integration
(`custom_components/bmr_hc64/`): the update coordinator's snapshot builder
and circuit sanity check (`coordinator.py`), the climate entity's derived
state and its action handlers (`climate.py`), the sensor update handlers
(`sensor.py`), and the two controller-wide switches (`switch.py`).

Python values `T | None` are embedded as `Option`; Python `dict` values
keyed by circuit id as association lists; Python `list` indexing and
`dict` item access, which can raise, return `Except PyError`.  Circuit
identifiers appear in the source as decimal strings (config entries, dict
keys) that are passed through `int(...)` before any list indexing; since
the decimal encoding is a bijection on the identifiers we represent a
circuit id by its numeric value `Nat` throughout.  Temperatures (Python
floats holding sensor readings in degrees Celsius) are embedded as `ℚ`;
every comparison the code performs on them is exact at the inputs used
here.
-/

namespace BmrHC64

/-- Errors a modelled Python expression can raise. -/
inductive PyError
  | keyError
  | indexError
  | attributeError
  deriving DecidableEq, Repr

/-- Truthiness of a `bool | None` Python value: `None` is falsy. -/
def pyTruthy : Option Bool → Bool
  | none => false
  | some b => b

/-- `dict.get(k)`: association-list lookup, `None` when the key is absent. -/
def dictGet {α : Type} (d : List (Nat × α)) (k : Nat) : Option α :=
  (d.find? (fun p => p.1 == k)).map Prod.snd

/-- `dict[k]`: raises `KeyError` when the key is absent. -/
def dictGetItem {α : Type} (d : List (Nat × α)) (k : Nat) : Except PyError α :=
  match dictGet d k with
  | some v => .ok v
  | none => .error .keyError

/-- `list[i]`: raises `IndexError` when out of range (indices here are
non-negative, so Python's negative indexing does not arise). -/
def listGetItem {α : Type} (l : List α) (i : Nat) : Except PyError α :=
  match l.get? i with
  | some v => .ok v
  | none => .error .indexError

/-- The schedule dictionary returned by `getCircuitSchedules` for one
circuit, as consumed by the integration: the assigned day-schedule ids
(key `day_schedules`) and the starting day. -/
structure Schedules where
  day_schedules : Option (List Nat)
  starting_day : Option Nat
  deriving DecidableEq, Repr

/-- `CircuitState` (dataclass in `coordinator.py`): per-circuit snapshot. -/
structure CircuitState where
  id : Nat
  name : String
  friendly_name : String
  enabled : Option Bool
  user_offset : Option ℚ
  max_offset : Option ℚ
  warning : Option Bool
  heating : Option Bool
  cooling : Option Bool
  low_mode : Option Bool
  summer_mode : Option Bool
  temperature : Option ℚ
  target_temperature : Option ℚ
  schedules : Option Schedules
  deriving DecidableEq, Repr

/-- The raw dictionary returned by `getCircuit` for one circuit, with the
keys the coordinator reads via `circuit_data.get(...)` / `circuit_data[...]`. -/
structure CircuitData where
  id : Nat
  name : String
  enabled : Option Bool
  user_offset : Option ℚ
  max_offset : Option ℚ
  warning : Option Bool
  heating : Option Bool
  cooling : Option Bool
  low_mode : Option Bool
  summer_mode : Option Bool
  temperature : Option ℚ
  target_temperature : Option ℚ
  deriving DecidableEq, Repr

/-- The low-mode descriptor dictionary returned by `getLowMode`. -/
structure LowModeDescriptor where
  enabled : Bool
  temperature : Option ℚ
  start_date : Option String
  deriving DecidableEq, Repr

/-- `BmrControllerState` (dataclass in `coordinator.py`): the whole-device
snapshot.  The `circuits` dict is an association list keyed by circuit id. -/
structure BmrControllerState where
  circuits : List (Nat × CircuitState)
  hdo : Option Bool
  unique_id : Option String
  low_mode : LowModeDescriptor
  low_mode_assignments : List Bool
  summer_mode : Option Bool
  summer_mode_assignments : List Bool
  deriving DecidableEq, Repr

/-- `MAX_TEMPERATURE_DELTA` from `coordinator.py`. -/
def MAX_TEMPERATURE_DELTA : ℚ := 5

/-- Python `abs` applied to a `bool`: `bool` is an `int` subclass, so
`abs(True) = 1` and `abs(False) = 0`. -/
def pyAbsOfBool (b : Bool) : ℚ := if b then 1 else 0

/-- Truthiness of a Python number. -/
def pyTruthyNum (q : ℚ) : Bool := q != 0

/-- `BmrUpdateCoordinator.sanity_check_circuit_state` from `coordinator.py`.

The temperature-delta test in the source reads
`abs(circuit_data["temperature"] - previous_circuit_state.temperature >= MAX_TEMPERATURE_DELTA)`:
the closing parenthesis of `abs` falls after the comparison, so `abs` is
applied to the boolean result of `new - prev >= 5.0` (giving `1` or `0`),
not to the difference.  The embedding reproduces that placement exactly. -/
def sanity_check_circuit_state (circuit_data : CircuitData)
    (previous_circuit_state : Option CircuitState) : Bool :=
  match previous_circuit_state with
  | none => true
  | some prev =>
    if circuit_data.id ≠ prev.id then false
    else match circuit_data.temperature with
      | none => false
      | some newTemp =>
        match prev.temperature with
        | some prevTemp =>
          if pyTruthyNum (pyAbsOfBool (decide (newTemp - prevTemp ≥ MAX_TEMPERATURE_DELTA))) then
            false
          else true
        | none => true

/-- Python `abs` on a number (used to state the spec's intended
`abs(new - prev) >= 5.0` test). -/
def pyAbs (q : ℚ) : ℚ := if q < 0 then -q else q

/-! ## Poll failure handling (`coordinator.py`, `_async_update_data`) -/

/-- The fixed message by which authentication failures from the device
client are recognised in `coordinator.py` and `__init__.py`. -/
def AUTH_FAILED_MESSAGE : String := "Authentication failed, check username/password"

/-- The names bound at module level in `coordinator.py` by its import
block (`from dataclasses import dataclass`, `from datetime import
timedelta`, `import logging`, `from typing import Any`, and the pybmr /
homeassistant / package-local imports).  Note `datetime` itself is not
among them: only `timedelta` is imported from the `datetime` module. -/
def coordinator_module_imports : List String :=
  ["dataclass", "timedelta", "logging", "Any", "Bmr", "ConfigEntry", "CONF_URL",
   "HomeAssistant", "ConfigEntryAuthFailed", "ConfigEntryError",
   "ConfigEntryNotReady", "DataUpdateCoordinator", "CONF_CIRCUIT_ID",
   "CONF_CIRCUIT_NAME", "DOMAIN"]

/-- What the `except` chain of `_async_update_data` raises. -/
inductive RaisedError
  | configEntryNotReady
  | configEntryAuthFailed
  | configEntryUnexpected
  | pythonNameError
  deriving DecidableEq, Repr

/-- The failure observed by the `except` chain: a `TimeoutError`, or any
other exception carrying its `args[0]` message. -/
inductive FetchError
  | timeout
  | exception (msg : String)
  deriving DecidableEq, Repr

/-- Local civil time, measured in whole minutes since local midnight of an
arbitrary epoch day; the calendar date is the floor division by 1440. -/
def dateOf (minutes : Int) : Int := Int.fdiv minutes 1440

/-- The midnight test of the handler:
`dt_now.date() == (dt_now - 15min).date() and dt_now.date() == (dt_now + 15min).date()`,
true exactly when the current time is at least 15 minutes after the last
midnight and more than 15 minutes before the next one. -/
def not_within_midnight_window (now_minutes : Int) : Bool :=
  (dateOf now_minutes == dateOf (now_minutes - 15)) &&
    (dateOf now_minutes == dateOf (now_minutes + 15))

/-- The `except` chain of `_async_update_data` in `coordinator.py`
(the handler in `async_setup_entry` of `__init__.py` is line-for-line the
same).  `TimeoutError` maps to `ConfigEntryNotReady`.  For any other
exception, when the message equals `AUTH_FAILED_MESSAGE` the handler's
first statement evaluates `datetime.now()`; `datetime` is not a bound
module-level name (see `coordinator_module_imports`), so that statement
raises `NameError` before the midnight test runs.  Were the name bound,
the handler would raise `ConfigEntryAuthFailed` away from midnight and
fall through to `ConfigEntryError("Unexpected error")` otherwise. -/
def handle_update_fetch_error (e : FetchError) (now_minutes : Int) : RaisedError :=
  match e with
  | .timeout => .configEntryNotReady
  | .exception msg =>
    if msg = AUTH_FAILED_MESSAGE then
      if coordinator_module_imports.contains "datetime" then
        if not_within_midnight_window now_minutes then .configEntryAuthFailed
        else .configEntryUnexpected
      else .pythonNameError
    else .configEntryUnexpected

/-! ## Snapshot builder (`coordinator.py`, `_async_update_data`) -/

/-- One circuit subentry of the config entry: `CONF_CIRCUIT_ID` and
`CONF_CIRCUIT_NAME`. -/
structure CircuitConfigEntry where
  circuit_id : Nat
  circuit_name : String
  deriving DecidableEq, Repr

/-- Assembly of a `CircuitState` from the fetched `circuit_data` dict, the
configured friendly name, and the fetched schedules dict, exactly as the
`CircuitState(...)` constructor call in `_async_update_data`. -/
def mkCircuitState (cd : CircuitData) (circuit_name : String)
    (circuit_schedules : Schedules) : CircuitState :=
  { id := cd.id
    name := cd.name
    friendly_name := circuit_name
    enabled := cd.enabled
    user_offset := cd.user_offset
    max_offset := cd.max_offset
    warning := cd.warning
    heating := cd.heating
    cooling := cd.cooling
    low_mode := cd.low_mode
    summer_mode := cd.summer_mode
    temperature := cd.temperature
    target_temperature := cd.target_temperature
    schedules := some circuit_schedules }

/-- The per-circuit loop of `_async_update_data`: for each configured
subentry fetch the raw circuit dict and its schedules, look up the
previous snapshot's state for that circuit (`self.data.circuits.get(id)
if self.data else None`), and insert the assembled `CircuitState` into
the result dict only when the sanity check passes.  `fetch` and
`fetch_schedules` stand for the blocking `getCircuit` / `getCircuitSchedules`
calls of the device client. -/
def build_circuits (fetch : Nat → CircuitData) (fetch_schedules : Nat → Schedules)
    (previous : Option (List (Nat × CircuitState))) :
    List CircuitConfigEntry → List (Nat × CircuitState)
  | [] => []
  | sub :: rest =>
    let circuit_data := fetch sub.circuit_id
    let circuit_schedules := fetch_schedules sub.circuit_id
    let previous_circuit_state := previous.bind (fun m => dictGet m sub.circuit_id)
    if sanity_check_circuit_state circuit_data previous_circuit_state then
      (sub.circuit_id, mkCircuitState circuit_data sub.circuit_name circuit_schedules) ::
        build_circuits fetch fetch_schedules previous rest
    else
      build_circuits fetch fetch_schedules previous rest

/-! ## Climate entity derived state (`climate.py`) -/

/-- `CLIMATE_PRESET_NONE` from `climate.py`. -/
def CLIMATE_PRESET_NONE : String := "none"

/-- `CLIMATE_PRESET_AWAY` from `climate.py`. -/
def CLIMATE_PRESET_AWAY : String := "away"

/-- The `HVACMode` values the entity uses. -/
inductive HVACMode
  | off
  | auto
  | heat
  | cool
  | heat_cool
  deriving DecidableEq, Repr

/-- The `HVACAction` values the entity uses. -/
inductive HVACAction
  | off
  | heating
  | cooling
  | idle
  deriving DecidableEq, Repr

/-- `BmrClimateEntity._update_preset_mode`: derived from the controller-wide
low-mode descriptor only (`self._low_mode`); `None` before the first
snapshot. -/
def update_preset_mode (low_mode : Option LowModeDescriptor) : Option String :=
  match low_mode with
  | none => none
  | some lm => if lm.enabled then some CLIMATE_PRESET_AWAY else some CLIMATE_PRESET_NONE

/-- `BmrClimateEntity._update_hvac_mode`: `OFF` when the circuit's entry of
`summer_mode_assignments` is set; else `HEAT`/`HEAT_COOL` when the assigned
day schedules equal exactly `[manual_mode_schedule]`
(`[int(manual)] == schedules.get("day_schedules")`, false when the key is
absent); else `AUTO`.  Indexing the assignment list can raise `IndexError`;
reading `.get` on a `None` schedules field would raise `AttributeError`. -/
def update_hvac_mode (circuit_state : Option CircuitState)
    (summer_mode : Option Bool) (summer_mode_assignments : List Bool)
    (circuit_id : Nat) (manual_mode_schedule : Nat) (enable_cooling : Bool) :
    Except PyError (Option HVACMode) :=
  match circuit_state, summer_mode with
  | none, _ => .ok none
  | _, none => .ok none
  | some cs, some _ =>
    match listGetItem summer_mode_assignments circuit_id with
    | .error e => .error e
    | .ok assigned =>
      if assigned then
        .ok (some .off)
      else
        match cs.schedules with
        | none => .error .attributeError
        | some sch =>
          if sch.day_schedules = some [manual_mode_schedule] then
            .ok (some (if enable_cooling then .heat_cool else .heat))
          else
            .ok (some .auto)

/-- `BmrClimateEntity._update_hvac_action`: `OFF` when summer-mode-assigned,
else heating / cooling flags, else `IDLE`. -/
def update_hvac_action (circuit_state : Option CircuitState)
    (summer_mode : Option Bool) (summer_mode_assignments : List Bool)
    (circuit_id : Nat) : Except PyError (Option HVACAction) :=
  match circuit_state, summer_mode with
  | none, _ => .ok none
  | _, none => .ok none
  | some cs, some _ =>
    match listGetItem summer_mode_assignments circuit_id with
    | .error e => .error e
    | .ok assigned =>
      if assigned then
        .ok (some .off)
      else if pyTruthy cs.heating then
        .ok (some .heating)
      else if pyTruthy cs.cooling then
        .ok (some .cooling)
      else
        .ok (some .idle)

/-- The attribute values a climate entity holds after a snapshot update. -/
structure ClimateAttrs where
  preset_mode : Option String
  hvac_mode : Option HVACMode
  hvac_action : Option HVACAction
  current_temperature : Option ℚ
  target_temperature : Option ℚ
  deriving DecidableEq, Repr

/-- `BmrClimateEntity._handle_coordinator_update`: reads
`self.coordinator.data.circuits[self._circuit_id]` (square-bracket dict
access, so a circuit absent from the snapshot raises `KeyError`), then
recomputes the derived attributes. -/
def climate_handle_coordinator_update (data : BmrControllerState)
    (circuit_id : Nat) (manual_mode_schedule : Nat) (enable_cooling : Bool) :
    Except PyError ClimateAttrs :=
  match dictGetItem data.circuits circuit_id with
  | .error e => .error e
  | .ok circuit_state =>
    match update_hvac_mode (some circuit_state) data.summer_mode
        data.summer_mode_assignments circuit_id manual_mode_schedule enable_cooling with
    | .error e => .error e
    | .ok mode =>
      match update_hvac_action (some circuit_state) data.summer_mode
          data.summer_mode_assignments circuit_id with
      | .error e => .error e
      | .ok action =>
        .ok
          { preset_mode := update_preset_mode (some data.low_mode)
            hvac_mode := mode
            hvac_action := action
            current_temperature := circuit_state.temperature
            target_temperature := circuit_state.target_temperature }

/-! ## Sensor update handlers (`sensor.py`) -/

/-- `BmrCircuitTemperature._handle_coordinator_update`: indexes the snapshot's
circuit dict with square brackets and publishes the measured temperature. -/
def sensor_temperature_handle_update (data : BmrControllerState)
    (circuit_id : Nat) : Except PyError (Option ℚ) :=
  match dictGetItem data.circuits circuit_id with
  | .error e => .error e
  | .ok circuit_state => .ok circuit_state.temperature

/-- `BmrCircuitTargetTemperature._handle_coordinator_update`: indexes the
snapshot's circuit dict with square brackets and publishes the target
temperature. -/
def sensor_target_temperature_handle_update (data : BmrControllerState)
    (circuit_id : Nat) : Except PyError (Option ℚ) :=
  match dictGetItem data.circuits circuit_id with
  | .error e => .error e
  | .ok circuit_state => .ok circuit_state.target_temperature

/-! ## Controller-wide power switch (`switch.py`) -/

/-- The generator expression
`all(summer_mode_assignments[int(cid)] for cid in circuit_ids)`:
evaluated lazily left to right, stopping at the first `False`, raising
`IndexError` only for elements actually reached. -/
def all_assignments_at (assignments : List Bool) : List Nat → Except PyError Bool
  | [] => .ok true
  | i :: rest =>
    match listGetItem assignments i with
    | .error e => .error e
    | .ok b => if b then all_assignments_at assignments rest else .ok false

/-- `BmrControllerPowerSwitch._handle_coordinator_update`:
`is_on = not (summer_mode and all(assignments[int(cid)] for cid in ids))`,
with Python's short-circuiting `and` (the generator is never evaluated
when `summer_mode` is falsy). -/
def power_switch_is_on (summer_mode : Option Bool)
    (summer_mode_assignments : List Bool) (circuit_ids : List Nat) :
    Except PyError Bool :=
  if pyTruthy summer_mode then
    match all_assignments_at summer_mode_assignments circuit_ids with
    | .error e => .error e
    | .ok a => .ok (!a)
  else .ok true

/-! ## Device client state and write calls

The device client (`pybmr`) is an external boundary; its setters are
embedded as state updates on a `DeviceState`, following the interface
description: assignment setters set or clear the membership of the given
ids, `setLowMode`/`setSummerMode` set the global flags,
`setCircuitSchedules` replaces a circuit's schedule assignment, and
`setSchedule` replaces a schedule's name and entry list. -/

/-- One entry of a schedule body, `{"time": ..., "temperature": ...}`. -/
structure ScheduleEntry where
  time : String
  temperature : Option ℚ
  deriving DecidableEq, Repr

/-- Abstract state of the physical controller. -/
structure DeviceState where
  num_circuits : Nat
  summer_mode_enabled : Bool
  summer_mode_assignment : Nat → Bool
  low_mode_enabled : Bool
  low_mode_temperature : Option ℚ
  low_mode_assignment : Nat → Bool
  circuit_schedule_assignment : Nat → List Nat × Option Nat
  schedule_table : Nat → Option (String × List ScheduleEntry)

/-- `setSummerModeAssignments(ids, value)`. -/
def dev_setSummerModeAssignments (ids : List Nat) (value : Bool)
    (d : DeviceState) : DeviceState :=
  { d with summer_mode_assignment :=
      fun i => if i ∈ ids then value else d.summer_mode_assignment i }

/-- `setSummerMode(enabled)`. -/
def dev_setSummerMode (enabled : Bool) (d : DeviceState) : DeviceState :=
  { d with summer_mode_enabled := enabled }

/-- `setLowModeAssignments(ids, value)`. -/
def dev_setLowModeAssignments (ids : List Nat) (value : Bool)
    (d : DeviceState) : DeviceState :=
  { d with low_mode_assignment :=
      fun i => if i ∈ ids then value else d.low_mode_assignment i }

/-- `setLowMode(enabled, temperature?)`: the temperature argument is
optional and absent calls leave the stored low-mode temperature alone. -/
def dev_setLowMode (enabled : Bool) (temperature : Option ℚ)
    (d : DeviceState) : DeviceState :=
  { d with low_mode_enabled := enabled
           low_mode_temperature :=
             match temperature with
             | some q => some q
             | none => d.low_mode_temperature }

/-- `setCircuitSchedules(id, day_schedules, starting_day?)`. -/
def dev_setCircuitSchedules (id : Nat) (day_schedules : List Nat)
    (starting_day : Option Nat) (d : DeviceState) : DeviceState :=
  { d with circuit_schedule_assignment :=
      fun i => if i = id then (day_schedules, starting_day)
               else d.circuit_schedule_assignment i }

/-- `setSchedule(id, name, entries)`. -/
def dev_setSchedule (id : Nat) (schedule_name : String)
    (entries : List ScheduleEntry) (d : DeviceState) : DeviceState :=
  { d with schedule_table :=
      fun i => if i = id then some (schedule_name, entries)
               else d.schedule_table i }

/-- `getSummerMode()`. -/
def dev_getSummerMode (d : DeviceState) : Bool := d.summer_mode_enabled

/-- `getSummerModeAssignments()`: one flag per controller circuit. -/
def dev_getSummerModeAssignments (d : DeviceState) : List Bool :=
  (List.range d.num_circuits).map d.summer_mode_assignment

/-- A write call issued to the device client. -/
inductive BmrCall
  | setLowModeAssignments (ids : List Nat) (value : Bool)
  | setLowMode (enabled : Bool) (temperature : Option ℚ)
  | setSummerModeAssignments (ids : List Nat) (value : Bool)
  | setSummerMode (enabled : Bool)
  | setCircuitSchedules (id : Nat) (day_schedules : List Nat) (starting_day : Option Nat)
  | setSchedule (id : Nat) (schedule_name : String) (entries : List ScheduleEntry)
  deriving DecidableEq, Repr

/-- Effect of one write call on the device state. -/
def applyCall (d : DeviceState) : BmrCall → DeviceState
  | .setLowModeAssignments ids v => dev_setLowModeAssignments ids v d
  | .setLowMode e t => dev_setLowMode e t d
  | .setSummerModeAssignments ids v => dev_setSummerModeAssignments ids v d
  | .setSummerMode e => dev_setSummerMode e d
  | .setCircuitSchedules id ds sd => dev_setCircuitSchedules id ds sd d
  | .setSchedule id n es => dev_setSchedule id n es d

/-- Effect of a call sequence, first call first. -/
def applyCalls (d : DeviceState) (calls : List BmrCall) : DeviceState :=
  calls.foldl applyCall d

/-! ## Controller-wide away switch (`switch.py`) -/

/-- `[int(circuit.id) for circuit in self.coordinator.data.circuits.values()]`. -/
def snapshot_circuit_ids (data : BmrControllerState) : List Nat :=
  data.circuits.map (fun p => p.2.id)

/-- `BmrControllerAwayModeSwitch.async_turn_on`: the exact write sequence it
issues — assign every snapshot circuit to low mode, then unconditionally
`setLowMode(True)` (no temperature argument).  The sequence depends only on
the snapshot, not on the device's current low-mode state. -/
def away_switch_turn_on_calls (data : BmrControllerState) : List BmrCall :=
  [.setLowModeAssignments (snapshot_circuit_ids data) true,
   .setLowMode true none]

/-- `BmrControllerAwayModeSwitch.async_turn_off`: remove every snapshot
circuit from the low-mode assignments, then unconditionally
`setLowMode(False)`. -/
def away_switch_turn_off_calls (data : BmrControllerState) : List BmrCall :=
  [.setLowModeAssignments (snapshot_circuit_ids data) false,
   .setLowMode false none]

/-! ## Climate entity actions (`climate.py`) -/

/-- The per-entity configuration a climate entity is constructed with. -/
structure ClimateConfig where
  circuit_id : Nat
  circuit_name : String
  manual_mode_schedule : Nat
  auto_mode_daily_schedules : List Nat
  auto_mode_daily_schedules_starting_day : Nat
  enable_cooling : Bool
  away_temperature : ℚ

/-- `BmrClimateEntity.async_set_hvac_mode` as a device-state transformer.
First block: `OFF` adds the circuit to the summer-mode assignments and
turns summer mode on when `getSummerMode()` is false; any other mode
removes the circuit and turns summer mode off when no assignment remains
(`not any(getSummerModeAssignments())`).  Second block: `HEAT`/`HEAT_COOL`
assigns the single sentinel schedule (no starting day); any other mode
assigns the configured daily rotation with its configured starting day. -/
def async_set_hvac_mode (cfg : ClimateConfig) (hvac_mode : HVACMode)
    (d : DeviceState) : DeviceState :=
  let d1 :=
    if hvac_mode = .off then
      let da := dev_setSummerModeAssignments [cfg.circuit_id] true d
      if ¬ dev_getSummerMode da then dev_setSummerMode true da else da
    else
      let da := dev_setSummerModeAssignments [cfg.circuit_id] false d
      if ¬ (dev_getSummerModeAssignments da).any id then dev_setSummerMode false da
      else da
  if hvac_mode = .heat ∨ hvac_mode = .heat_cool then
    dev_setCircuitSchedules cfg.circuit_id [cfg.manual_mode_schedule] none d1
  else
    dev_setCircuitSchedules cfg.circuit_id cfg.auto_mode_daily_schedules
      (some cfg.auto_mode_daily_schedules_starting_day) d1

/-- `BmrClimateEntity.async_set_temperature` as a device-state transformer:
rewrite the sentinel schedule's body to the single constant entry at time
"00:00" holding the requested temperature, then, when the entity's current
mode is not `HEAT`/`HEAT_COOL`, switch to `HEAT_COOL` (cooling enabled) or
`HEAT`. -/
def async_set_temperature (cfg : ClimateConfig)
    (current_hvac_mode : Option HVACMode) (temperature : Option ℚ)
    (d : DeviceState) : DeviceState :=
  let d1 := dev_setSchedule cfg.manual_mode_schedule
    (cfg.circuit_name ++ " override") [{ time := "00:00", temperature := temperature }] d
  if current_hvac_mode = some .heat ∨ current_hvac_mode = some .heat_cool then d1
  else if cfg.enable_cooling then async_set_hvac_mode cfg .heat_cool d1
  else async_set_hvac_mode cfg .heat d1

/-- The schedules dict the next poll's `getCircuitSchedules` returns for a
circuit, read off the device state. -/
def read_circuit_schedules (d : DeviceState) (circuit_id : Nat) : Schedules :=
  { day_schedules := some (d.circuit_schedule_assignment circuit_id).1
    starting_day := (d.circuit_schedule_assignment circuit_id).2 }

/-! ## Concrete example data -/

/-- Example snapshot state of circuit 1 ("Kitchen"), measured 20 °C. -/
def exampleCircuit1 : CircuitState :=
  { id := 1, name := "kitchen", friendly_name := "Kitchen", enabled := some true
    user_offset := some 0, max_offset := some 5, warning := some false
    heating := some true, cooling := some false, low_mode := some false
    summer_mode := some false, temperature := some 20
    target_temperature := some 21
    schedules := some { day_schedules := some [1, 2], starting_day := some 0 } }

/-- Example snapshot state of circuit 2 ("Bedroom"), measured 19 °C. -/
def exampleCircuit2 : CircuitState :=
  { id := 2, name := "bedroom", friendly_name := "Bedroom", enabled := some true
    user_offset := some 0, max_offset := some 5, warning := some false
    heating := some false, cooling := some false, low_mode := some false
    summer_mode := some false, temperature := some 19
    target_temperature := some 20
    schedules := some { day_schedules := some [3], starting_day := some 0 } }

/-- Example low-mode descriptor: globally disabled. -/
def exampleLowModeOff : LowModeDescriptor :=
  { enabled := false, temperature := some 18, start_date := none }

/-- Example controller snapshot holding circuits 1 and 2. -/
def exampleSnapshot : BmrControllerState :=
  { circuits := [(1, exampleCircuit1), (2, exampleCircuit2)], hdo := some false
    unique_id := some "hc64-1", low_mode := exampleLowModeOff
    low_mode_assignments := [false, false, false], summer_mode := some false
    summer_mode_assignments := [false, false, false] }

/-- Example controller snapshot from a poll in which circuit 1 failed its
sanity check: circuit 1 is absent from the circuit mapping, circuit 2 is
present. -/
def exampleSnapshotWithout1 : BmrControllerState :=
  { exampleSnapshot with circuits := [(2, exampleCircuit2)] }

/-- Example raw reading for circuit 1 whose temperature dropped from the
previous 20 °C to 10 °C. -/
def exampleDropReading : CircuitData :=
  { id := 1, name := "kitchen", enabled := some true, user_offset := some 0
    max_offset := some 5, warning := some false, heating := some true
    cooling := some false, low_mode := some false, summer_mode := some false
    temperature := some 10, target_temperature := some 21 }

/-- Example device state: low mode already enabled, with circuit 3 (a
circuit not in `exampleSnapshot`) assigned to it. -/
def exampleDevice : DeviceState :=
  { num_circuits := 4, summer_mode_enabled := false
    summer_mode_assignment := fun _ => false
    low_mode_enabled := true, low_mode_temperature := some 18
    low_mode_assignment := fun i => i == 3
    circuit_schedule_assignment := fun _ => ([1, 2], some 0)
    schedule_table := fun _ => none }

/-- Example reading for circuit 1 that jumped upward from 20 °C to 26 °C,
which the sanity check rejects. -/
def exampleJumpReading : CircuitData :=
  { id := 1, name := "kitchen", enabled := some true, user_offset := some 0
    max_offset := some 5, warning := some false, heating := some true
    cooling := some false, low_mode := some false, summer_mode := some false
    temperature := some 26, target_temperature := some 21 }

/-- Example reading for circuit 2 at 19 °C, which the sanity check accepts. -/
def exampleGoodReading2 : CircuitData :=
  { id := 2, name := "bedroom", enabled := some true, user_offset := some 0
    max_offset := some 5, warning := some false, heating := some false
    cooling := some false, low_mode := some false, summer_mode := some false
    temperature := some 19, target_temperature := some 20 }

/-- Example fetch results of one poll: a rejected reading for circuit 1, a
valid one for every other circuit. -/
def exampleFetch : Nat → CircuitData :=
  fun i => if i = 1 then exampleJumpReading else exampleGoodReading2

/-- Example fetched schedules, identical for every circuit. -/
def exampleFetchSchedules : Nat → Schedules :=
  fun _ => { day_schedules := some [1, 2], starting_day := some 0 }

/-- Example configured subentries: circuits 1 and 2. -/
def exampleConfigEntries : List CircuitConfigEntry :=
  [{ circuit_id := 1, circuit_name := "Kitchen" },
   { circuit_id := 2, circuit_name := "Bedroom" }]

/-- Example per-entity climate configuration: circuit 1, sentinel
("manual override") schedule 8, daily rotation `[1, 2]` starting at day 0,
cooling disabled. -/
def exampleClimateConfig : ClimateConfig :=
  { circuit_id := 1, circuit_name := "Kitchen", manual_mode_schedule := 8
    auto_mode_daily_schedules := [1, 2]
    auto_mode_daily_schedules_starting_day := 0, enable_cooling := false
    away_temperature := 18 }

/-! ## C1: circuit sanity check and the temperature-delta threshold -/

/-- C1 (code bug): the sanity check is not symmetric in the sign of the
temperature change.  For the reading of circuit 1 at 10 °C against a
previous state at 20 °C — identifiers equal, both temperatures defined,
absolute difference 10 ≥ 5 — the claim requires the check to return
`false`, but `sanity_check_circuit_state` returns `true`: in the source
the comparison `new - prev >= MAX_TEMPERATURE_DELTA` sits inside the call
to `abs`, so `abs` is applied to the boolean comparison result and a
downward jump of any size is accepted. -/
theorem sanity_check_accepts_large_temperature_drop :
    exampleDropReading.id = exampleCircuit1.id ∧
    exampleDropReading.temperature = some 10 ∧
    exampleCircuit1.temperature = some 20 ∧
    pyAbs ((10 : ℚ) - 20) ≥ MAX_TEMPERATURE_DELTA ∧
    sanity_check_circuit_state exampleDropReading (some exampleCircuit1) = true := by
  refine ⟨rfl, rfl, rfl, ?_, ?_⟩
  · norm_num [pyAbs, MAX_TEMPERATURE_DELTA]
  · norm_num [sanity_check_circuit_state, exampleDropReading, exampleCircuit1,
      pyTruthyNum, pyAbsOfBool, MAX_TEMPERATURE_DELTA]

/-! ## C2: authentication failure handling near midnight -/

/-- C2 (code bug): on an authentication failure the handler never reaches
the midnight test.  At 12:00 local time (minute 720 of the day) the claim
requires `ConfigEntryAuthFailed`; at 23:52 (minute 1432) it requires the
failure to be swallowed as transient.  In both cases the handler raises
`NameError`, because its first statement evaluates `datetime.now()` and
`datetime` is not among the names imported by `coordinator.py` (or by
`__init__.py`, whose handler is identical).  The final two conjuncts
record that the two instants do fall on the two sides of the midnight
test the handler was meant to perform. -/
theorem auth_failure_handler_raises_name_error :
    handle_update_fetch_error (.exception AUTH_FAILED_MESSAGE) 720 = .pythonNameError ∧
    handle_update_fetch_error (.exception AUTH_FAILED_MESSAGE) 1432 = .pythonNameError ∧
    RaisedError.pythonNameError ≠ RaisedError.configEntryAuthFailed ∧
    not_within_midnight_window 720 = true ∧
    not_within_midnight_window 1432 = false := by
  refine ⟨?_, ?_, by decide, by decide, by decide⟩ <;> rfl

/-! ## C3: update handlers when a circuit is absent from the snapshot -/

/-- C3 (code bug): when a circuit is absent from the snapshot's circuit
mapping (dropped by the sanity check that poll), every one of the three
update handlers for its entities raises `KeyError` instead of completing:
each reads `self.coordinator.data.circuits[self._circuit_id]` with
square-bracket dict access.  Evaluated on a snapshot holding circuit 2
but not circuit 1, for the entities of circuit 1. -/
theorem dropped_circuit_update_handlers_raise_key_error :
    climate_handle_coordinator_update exampleSnapshotWithout1 1 8 false
      = .error .keyError ∧
    sensor_temperature_handle_update exampleSnapshotWithout1 1
      = .error .keyError ∧
    sensor_target_temperature_handle_update exampleSnapshotWithout1 1
      = .error .keyError := by
  refine ⟨?_, ?_, ?_⟩ <;> rfl

/-! ## C4: the controller-wide power switch -/

/-- Evaluation lemma: under in-range indices the generator-based
conjunction equals the pointwise conjunction over the id list. -/
theorem all_assignments_at_eq_all (assignments : List Bool) :
    ∀ ids : List Nat, (∀ i ∈ ids, i < assignments.length) →
      all_assignments_at assignments ids
        = .ok (ids.all (fun i => assignments.getD i false))
  | [], _ => rfl
  | i :: rest, h => by
    have hi : i < assignments.length := h i (List.mem_cons_self i rest)
    have hrest : ∀ j ∈ rest, j < assignments.length :=
      fun j hj => h j (List.mem_cons_of_mem i hj)
    have hget : assignments.get? i = some (assignments.getD i false) := by
      rw [List.getD_eq_getElem?_getD, List.get?_eq_getElem?,
        List.getElem?_eq_getElem hi]
      rfl
    simp only [all_assignments_at, listGetItem, hget, List.all_cons]
    cases hb : assignments.getD i false with
    | false => rfl
    | true => simpa using all_assignments_at_eq_all assignments rest hrest

/-- C4 counterexample: with summer mode active and configured circuit 1
not summer-mode-assigned, the claim requires the power switch to report
off; the code reports on (`not` of the short-circuited conjunction
`summer_mode and all(...)`, which is false as soon as one assignment is
false). -/
theorem power_switch_on_while_summer_mode_active :
    pyTruthy (some true) = true ∧
    power_switch_is_on (some true) [true, false] [0, 1] = .ok true := by
  exact ⟨rfl, rfl⟩

/-- C4 (amended): the power switch reports on iff NOT (summer mode is
active AND every configured circuit is summer-mode-assigned); in
particular with summer mode active it still reports on whenever at least
one configured circuit is unassigned. -/
theorem power_switch_is_on_iff (b : Bool) (assignments : List Bool)
    (circuit_ids : List Nat)
    (h : ∀ i ∈ circuit_ids, i < assignments.length) :
    power_switch_is_on (some b) assignments circuit_ids
      = .ok (!(b && circuit_ids.all (fun i => assignments.getD i false))) := by
  cases b with
  | false => rfl
  | true =>
    simp only [power_switch_is_on, pyTruthy, if_pos,
      all_assignments_at_eq_all assignments circuit_ids h, Bool.true_and]

/-- C4 witness: the amended equivalence applied to summer mode active with
assignments `[true, false]` over configured circuits 0 and 1. -/
theorem power_switch_is_on_iff_witness :
    power_switch_is_on (some true) [true, false] [0, 1]
      = .ok (!(true && [0, 1].all (fun i => [true, false].getD i false))) :=
  power_switch_is_on_iff true [true, false] [0, 1] (by decide)

/-! ## C5: the controller-wide away switch -/

/-- C5 counterexample: on `exampleDevice` low mode is already enabled (so
not "previously disabled for all circuits"), yet turning the away switch
on issues the enable-low-mode write; and after turning it off, circuit 3
is still low-mode-assigned (it is not in the snapshot), yet the
disable-low-mode write was issued (the resulting state has the global
flag cleared). -/
theorem away_switch_writes_unconditionally :
    exampleDevice.low_mode_enabled = true ∧
    BmrCall.setLowMode true none ∈ away_switch_turn_on_calls exampleSnapshot ∧
    (applyCalls exampleDevice (away_switch_turn_off_calls exampleSnapshot)).low_mode_assignment 3
      = true ∧
    (applyCalls exampleDevice (away_switch_turn_off_calls exampleSnapshot)).low_mode_enabled
      = false := by
  refine ⟨rfl, ?_, by rfl, rfl⟩
  simp [away_switch_turn_on_calls]

/-- C5 (amended): turning the away switch on assigns low mode to every
circuit of the current snapshot and unconditionally issues the
enable-low-mode write; turning it off removes every snapshot circuit and
unconditionally issues the disable-low-mode write; both operations are
idempotent — repeating the identical call leaves the device state
unchanged (and the issued call sequence, a function of the snapshot
alone, is identical). -/
theorem away_switch_state_effects (data : BmrControllerState) (d : DeviceState) :
    (applyCalls d (away_switch_turn_on_calls data)).low_mode_enabled = true ∧
    (∀ i ∈ snapshot_circuit_ids data,
      (applyCalls d (away_switch_turn_on_calls data)).low_mode_assignment i = true) ∧
    applyCalls (applyCalls d (away_switch_turn_on_calls data))
        (away_switch_turn_on_calls data)
      = applyCalls d (away_switch_turn_on_calls data) ∧
    (applyCalls d (away_switch_turn_off_calls data)).low_mode_enabled = false ∧
    (∀ i ∈ snapshot_circuit_ids data,
      (applyCalls d (away_switch_turn_off_calls data)).low_mode_assignment i = false) ∧
    applyCalls (applyCalls d (away_switch_turn_off_calls data))
        (away_switch_turn_off_calls data)
      = applyCalls d (away_switch_turn_off_calls data) := by
  refine ⟨rfl, fun i hi => ?_, ?_, rfl, fun i hi => ?_, ?_⟩
  · simp [applyCalls, away_switch_turn_on_calls, applyCall,
      dev_setLowModeAssignments, dev_setLowMode, hi]
  · simp only [applyCalls, away_switch_turn_on_calls, List.foldl, applyCall,
      dev_setLowModeAssignments, dev_setLowMode]
    congr 1
    funext i
    by_cases hi : i ∈ snapshot_circuit_ids data <;> simp [hi]
  · simp [applyCalls, away_switch_turn_off_calls, applyCall,
      dev_setLowModeAssignments, dev_setLowMode, hi]
  · simp only [applyCalls, away_switch_turn_off_calls, List.foldl, applyCall,
      dev_setLowModeAssignments, dev_setLowMode]
    congr 1
    funext i
    by_cases hi : i ∈ snapshot_circuit_ids data <;> simp [hi]

/-- C5 witness: the amended statement applied to the example snapshot and
the example device. -/
theorem away_switch_state_effects_witness :
    (applyCalls exampleDevice (away_switch_turn_on_calls exampleSnapshot)).low_mode_enabled
        = true ∧
    (applyCalls exampleDevice (away_switch_turn_off_calls exampleSnapshot)).low_mode_enabled
        = false :=
  ⟨(away_switch_state_effects exampleSnapshot exampleDevice).1,
   (away_switch_state_effects exampleSnapshot exampleDevice).2.2.2.1⟩

/-! ## C6: per-circuit inclusion in the snapshot -/

/-- Lookup in an association list with a new head entry. -/
theorem dictGet_cons {α : Type} (k : Nat) (v : α) (l : List (Nat × α)) (k' : Nat) :
    dictGet ((k, v) :: l) k' = if k = k' then some v else dictGet l k' := by
  by_cases h : k = k'
  · simp [dictGet, List.find?_cons_of_pos, h]
  · have hb : ((k, v).1 == k') = false := by simpa using h
    simp [dictGet, List.find?_cons_of_neg, hb, h]

/-- The snapshot's circuit dict only holds keys drawn from the configured
subentries. -/
theorem dictGet_build_circuits_of_not_mem (fetch : Nat → CircuitData)
    (fetch_schedules : Nat → Schedules)
    (previous : Option (List (Nat × CircuitState))) :
    ∀ subentries : List CircuitConfigEntry, ∀ k : Nat,
      k ∉ subentries.map CircuitConfigEntry.circuit_id →
      dictGet (build_circuits fetch fetch_schedules previous subentries) k = none
  | [], _, _ => rfl
  | s :: rest, k, hk => by
    have hne : s.circuit_id ≠ k := fun h => hk (by simp [h])
    have hrest : k ∉ rest.map CircuitConfigEntry.circuit_id :=
      fun h => hk (by simp [h])
    have ih := dictGet_build_circuits_of_not_mem fetch fetch_schedules previous
      rest k hrest
    simp only [build_circuits]
    by_cases hc : sanity_check_circuit_state (fetch s.circuit_id)
        (previous.bind fun m => dictGet m s.circuit_id)
    · simp [hc, dictGet_cons, hne, ih]
    · simp [hc, ih]

/-- C6: in each poll, a configured circuit is present in the new
snapshot's circuit mapping exactly when its own sanity check (against the
previous snapshot's entry for that circuit) passes — in which case its
entry is the state assembled from its own fetched data, neither retried
nor defaulted — and is absent entirely when the check fails; the
condition for each circuit depends only on that circuit's own reading,
so every other configured circuit is unaffected. -/
theorem circuit_included_iff_sanity_check (fetch : Nat → CircuitData)
    (fetch_schedules : Nat → Schedules)
    (previous : Option (List (Nat × CircuitState))) :
    ∀ subentries : List CircuitConfigEntry,
      (subentries.map CircuitConfigEntry.circuit_id).Nodup →
      ∀ e ∈ subentries,
        dictGet (build_circuits fetch fetch_schedules previous subentries)
            e.circuit_id
          = (if sanity_check_circuit_state (fetch e.circuit_id)
                (previous.bind fun m => dictGet m e.circuit_id) then
               some (mkCircuitState (fetch e.circuit_id) e.circuit_name
                 (fetch_schedules e.circuit_id))
             else none)
  | [], _, e, he => absurd he (List.not_mem_nil e)
  | s :: rest, hnodup, e, he => by
    have hnd_rest : (rest.map CircuitConfigEntry.circuit_id).Nodup :=
      (List.nodup_cons.mp hnodup).2
    have hhead : s.circuit_id ∉ rest.map CircuitConfigEntry.circuit_id :=
      (List.nodup_cons.mp hnodup).1
    rcases List.mem_cons.mp he with rfl | hmem
    · simp only [build_circuits]
      by_cases hc : sanity_check_circuit_state (fetch e.circuit_id)
          (previous.bind fun m => dictGet m e.circuit_id)
      · simp [hc, dictGet_cons]
      · simp [hc, dictGet_build_circuits_of_not_mem fetch fetch_schedules
          previous rest e.circuit_id hhead]
    · have hne : s.circuit_id ≠ e.circuit_id := by
        intro h
        exact hhead (h ▸ List.mem_map_of_mem CircuitConfigEntry.circuit_id hmem)
      have ih := circuit_included_iff_sanity_check fetch fetch_schedules previous
        rest hnd_rest e hmem
      simp only [build_circuits]
      by_cases hc : sanity_check_circuit_state (fetch s.circuit_id)
          (previous.bind fun m => dictGet m s.circuit_id)
      · simp [hc, dictGet_cons, hne, ih]
      · simp [hc, ih]

/-- C6 witness: the inclusion equivalence applied to circuit 1 of the
two-circuit example configuration, polled against the example previous
snapshot. -/
theorem circuit_included_iff_sanity_check_witness :
    dictGet (build_circuits exampleFetch exampleFetchSchedules
        (some exampleSnapshot.circuits) exampleConfigEntries) 1
      = (if sanity_check_circuit_state (exampleFetch 1)
            ((some exampleSnapshot.circuits).bind fun m => dictGet m 1) then
           some (mkCircuitState (exampleFetch 1) "Kitchen"
             (exampleFetchSchedules 1))
         else none) :=
  circuit_included_iff_sanity_check exampleFetch exampleFetchSchedules
    (some exampleSnapshot.circuits) exampleConfigEntries (by decide)
    { circuit_id := 1, circuit_name := "Kitchen" } (by decide)

/-! ## C7: derived climate operating mode -/

/-- In-range list accesses succeed with the positional element. -/
theorem listGetItem_of_lt {α : Type} [Inhabited α] (l : List α) (i : Nat)
    (h : i < l.length) : listGetItem l i = .ok (l.getD i default) := by
  simp [listGetItem, List.getD_eq_getElem?_getD, List.get?_eq_getElem?,
    List.getElem?_eq_getElem h]

/-- Evaluation of `_update_hvac_mode` when the snapshot data is complete
and the circuit index is in range. -/
theorem update_hvac_mode_eval (cs : CircuitState) (sm : Bool)
    (assignments : List Bool) (circuit_id manual_mode_schedule : Nat)
    (enable_cooling : Bool) (sch : Schedules)
    (hsch : cs.schedules = some sch) (hlen : circuit_id < assignments.length) :
    update_hvac_mode (some cs) (some sm) assignments circuit_id
        manual_mode_schedule enable_cooling
      = .ok (some
          (if assignments.getD circuit_id false then HVACMode.off
           else if sch.day_schedules = some [manual_mode_schedule] then
             (if enable_cooling then HVACMode.heat_cool else HVACMode.heat)
           else HVACMode.auto)) := by
  simp only [update_hvac_mode, listGetItem_of_lt assignments circuit_id hlen, hsch]
  cases assignments.getD circuit_id false
  · by_cases hd : sch.day_schedules = some [manual_mode_schedule] <;> simp [hd]
  · simp

/-- Evaluation of `_update_hvac_action` when the snapshot data is complete
and the circuit index is in range. -/
theorem update_hvac_action_eval (cs : CircuitState) (sm : Bool)
    (assignments : List Bool) (circuit_id : Nat)
    (hlen : circuit_id < assignments.length) :
    update_hvac_action (some cs) (some sm) assignments circuit_id
      = .ok (some
          (if assignments.getD circuit_id false then HVACAction.off
           else if pyTruthy cs.heating then HVACAction.heating
           else if pyTruthy cs.cooling then HVACAction.cooling
           else HVACAction.idle)) := by
  simp only [update_hvac_action, listGetItem_of_lt assignments circuit_id hlen]
  cases assignments.getD circuit_id false <;>
    cases pyTruthy cs.heating <;> cases pyTruthy cs.cooling <;> simp

/-- C7: for every snapshot containing the circuit (and carrying a defined
summer-mode flag, an in-range assignment list and a schedules dict), the
derived operating mode is `OFF` when the circuit is summer-mode-assigned;
otherwise `HEAT` (`HEAT_COOL` when cooling is enabled) exactly when the
circuit's schedule assignment equals the single sentinel manual-override
schedule; otherwise `AUTO`. -/
theorem climate_hvac_mode_characterisation (data : BmrControllerState)
    (circuit_id manual_mode_schedule : Nat) (enable_cooling : Bool)
    (cs : CircuitState) (sm : Bool) (sch : Schedules)
    (hcs : dictGet data.circuits circuit_id = some cs)
    (hsm : data.summer_mode = some sm)
    (hsch : cs.schedules = some sch)
    (hlen : circuit_id < data.summer_mode_assignments.length) :
    (climate_handle_coordinator_update data circuit_id manual_mode_schedule
        enable_cooling).map ClimateAttrs.hvac_mode
      = .ok (some
          (if data.summer_mode_assignments.getD circuit_id false then HVACMode.off
           else if sch.day_schedules = some [manual_mode_schedule] then
             (if enable_cooling then HVACMode.heat_cool else HVACMode.heat)
           else HVACMode.auto)) := by
  simp [climate_handle_coordinator_update, dictGetItem, hcs, hsm,
    update_hvac_mode_eval cs sm data.summer_mode_assignments circuit_id
      manual_mode_schedule enable_cooling sch hsch hlen,
    update_hvac_action_eval cs sm data.summer_mode_assignments circuit_id hlen,
    Except.map]

/-- C7 witness: the characterisation applied to circuit 1 of the example
snapshot (not summer-mode-assigned, ordinary rotation `[1, 2]` distinct
from the sentinel schedule 8), yielding `AUTO`. -/
theorem climate_hvac_mode_characterisation_witness :
    (climate_handle_coordinator_update exampleSnapshot 1 8 false).map
        ClimateAttrs.hvac_mode
      = .ok (some
          (if exampleSnapshot.summer_mode_assignments.getD 1 false then HVACMode.off
           else if (some [1, 2] : Option (List Nat)) = some [8] then
             (if false then HVACMode.heat_cool else HVACMode.heat)
           else HVACMode.auto)) :=
  climate_hvac_mode_characterisation exampleSnapshot 1 8 false exampleCircuit1
    false { day_schedules := some [1, 2], starting_day := some 0 } rfl rfl rfl
    (by decide)

/-! ## C10: preset mode is derived from the global low-mode flag alone -/

/-- C10: the preset mode is derived solely from the controller-wide
low-mode descriptor's enabled flag — `away` when true, `none` when false,
undefined before a descriptor exists — independently of the per-circuit
low-mode assignments: whenever the snapshot update handler succeeds, the
preset equals the descriptor-determined value for every circuit. -/
theorem preset_mode_from_global_low_mode_only (data : BmrControllerState)
    (circuit_id manual_mode_schedule : Nat) (enable_cooling : Bool)
    (attrs : ClimateAttrs)
    (h : climate_handle_coordinator_update data circuit_id manual_mode_schedule
        enable_cooling = .ok attrs) :
    update_preset_mode none = none ∧
    attrs.preset_mode
      = some (if data.low_mode.enabled then CLIMATE_PRESET_AWAY
              else CLIMATE_PRESET_NONE) := by
  refine ⟨rfl, ?_⟩
  unfold climate_handle_coordinator_update at h
  split at h
  · cases h
  · split at h
    · cases h
    · split at h
      · cases h
      · cases h
        by_cases he : data.low_mode.enabled <;> simp [update_preset_mode, he]

/-- C10 witness: the example snapshot has global low mode disabled and the
handler for circuit 1 succeeds, so the preset is `none` — and it would be
`away` for every circuit were the flag set, regardless of the per-circuit
assignment list. -/
theorem preset_mode_from_global_low_mode_only_witness :
    update_preset_mode none = none ∧
    (ClimateAttrs.mk (some CLIMATE_PRESET_NONE) (some HVACMode.auto)
        (some HVACAction.heating) (some 20) (some 21)).preset_mode
      = some (if exampleSnapshot.low_mode.enabled then CLIMATE_PRESET_AWAY
              else CLIMATE_PRESET_NONE) :=
  preset_mode_from_global_low_mode_only exampleSnapshot 1 8 false
    (ClimateAttrs.mk (some CLIMATE_PRESET_NONE) (some HVACMode.auto)
      (some HVACAction.heating) (some 20) (some 21)) (by rfl)

/-! ## C8: OFF-then-AUTO round-trips the schedule assignment -/

/-- C8: for every climate configuration and device state, setting the
climate mode to `OFF` and then back to `AUTO` leaves the circuit's
schedule assignment, as written to the device, equal to the configured
daily rotation starting at the configured starting day (both mode writes
end by assigning schedules; the `AUTO` write restores the rotation). -/
theorem off_then_auto_restores_rotation (cfg : ClimateConfig) (d : DeviceState) :
    (async_set_hvac_mode cfg .auto
        (async_set_hvac_mode cfg .off d)).circuit_schedule_assignment
        cfg.circuit_id
      = (cfg.auto_mode_daily_schedules,
         some cfg.auto_mode_daily_schedules_starting_day) := by
  have h : ∀ d0 : DeviceState,
      (async_set_hvac_mode cfg .auto d0).circuit_schedule_assignment cfg.circuit_id
        = (cfg.auto_mode_daily_schedules,
           some cfg.auto_mode_daily_schedules_starting_day) := by
    intro d0
    simp [async_set_hvac_mode, dev_setCircuitSchedules]
  exact h _

/-- C8 witness: the round-trip applied to the example configuration and
the example device, restoring rotation `[1, 2]` starting at day 0 for
circuit 1. -/
theorem off_then_auto_restores_rotation_witness :
    (async_set_hvac_mode exampleClimateConfig .auto
        (async_set_hvac_mode exampleClimateConfig .off
          exampleDevice)).circuit_schedule_assignment 1
      = ([1, 2], some 0) :=
  off_then_auto_restores_rotation exampleClimateConfig exampleDevice

/-! ## C9: setting a target temperature while in AUTO mode -/

/-- Reading the summer-mode assignment list of a device at an in-range
index yields that circuit's flag. -/
theorem dev_getSummerModeAssignments_getItem (d : DeviceState) (i : Nat)
    (h : i < d.num_circuits) :
    listGetItem (dev_getSummerModeAssignments d) i
      = .ok (d.summer_mode_assignment i) := by
  simp [listGetItem, dev_getSummerModeAssignments, List.getElem?_map,
    List.getElem?_range h]

/-- C9: setting a target temperature `t` while the entity is in `AUTO`
mode (1) rewrites the sentinel override schedule's body to the single
constant entry at "00:00" holding `t`, (2) reassigns the circuit to
exactly the sentinel schedule, and (3) a subsequent poll of the resulting
device derives operating mode `HEAT` (`HEAT_COOL` when cooling is
enabled), under which reads report `t` as the sentinel schedule's
constant value. -/
theorem set_temperature_in_auto_mode (cfg : ClimateConfig) (d : DeviceState)
    (t : ℚ) (cs : CircuitState) (hnum : cfg.circuit_id < d.num_circuits) :
    (async_set_temperature cfg (some .auto) (some t) d).schedule_table
        cfg.manual_mode_schedule
      = some (cfg.circuit_name ++ " override",
          [{ time := "00:00", temperature := some t }]) ∧
    (async_set_temperature cfg (some .auto) (some t) d).circuit_schedule_assignment
        cfg.circuit_id
      = ([cfg.manual_mode_schedule], none) ∧
    update_hvac_mode
        (some { cs with schedules := some (read_circuit_schedules
          (async_set_temperature cfg (some .auto) (some t) d) cfg.circuit_id) })
        (some (async_set_temperature cfg (some .auto) (some t) d).summer_mode_enabled)
        (dev_getSummerModeAssignments (async_set_temperature cfg (some .auto) (some t) d))
        cfg.circuit_id cfg.manual_mode_schedule cfg.enable_cooling
      = .ok (some (if cfg.enable_cooling then HVACMode.heat_cool else HVACMode.heat)) := by
  have hnum1 : cfg.circuit_id
      < (async_set_temperature cfg (some .auto) (some t) d).num_circuits := by
    by_cases hc : cfg.enable_cooling <;>
      simp [async_set_temperature, async_set_hvac_mode, dev_setSchedule,
        dev_setCircuitSchedules, dev_setSummerMode, dev_setSummerModeAssignments,
        apply_ite, hc, hnum]
  have hassign : (async_set_temperature cfg (some .auto) (some t) d).summer_mode_assignment
      cfg.circuit_id = false := by
    by_cases hc : cfg.enable_cooling <;>
      simp [async_set_temperature, async_set_hvac_mode, dev_setSchedule,
        dev_setCircuitSchedules, dev_setSummerMode, dev_setSummerModeAssignments,
        apply_ite, hc]
  refine ⟨?_, ?_, ?_⟩
  · by_cases hc : cfg.enable_cooling <;>
      simp [async_set_temperature, async_set_hvac_mode, dev_setSchedule,
        dev_setCircuitSchedules, dev_setSummerMode, dev_setSummerModeAssignments,
        apply_ite, hc]
  · by_cases hc : cfg.enable_cooling <;>
      simp [async_set_temperature, async_set_hvac_mode, dev_setSchedule,
        dev_setCircuitSchedules, dev_setSummerMode, dev_setSummerModeAssignments,
        apply_ite, hc]
  · have hsched : (async_set_temperature cfg (some .auto) (some t) d).circuit_schedule_assignment
        cfg.circuit_id = ([cfg.manual_mode_schedule], none) := by
      by_cases hc : cfg.enable_cooling <;>
        simp [async_set_temperature, async_set_hvac_mode, dev_setSchedule,
          dev_setCircuitSchedules, dev_setSummerMode, dev_setSummerModeAssignments,
          apply_ite, hc]
    simp [update_hvac_mode,
      dev_getSummerModeAssignments_getItem _ _ hnum1, hassign,
      read_circuit_schedules, hsched]

/-- C9 witness: the property applied to a concrete single-circuit
configuration (circuit 1, sentinel schedule 8, cooling disabled) on the
example device, with requested temperature 22 °C. -/
theorem set_temperature_in_auto_mode_witness :
    (async_set_temperature exampleClimateConfig (some .auto) (some 22)
        exampleDevice).schedule_table 8
      = some ("Kitchen override", [{ time := "00:00", temperature := some 22 }]) :=
  (set_temperature_in_auto_mode exampleClimateConfig exampleDevice 22
    exampleCircuit1 (by decide)).1

end BmrHC64
